import Mathlib

/-
Verification of the data-aggregation pipeline of the stop repository
(src/stop/slurm.py and its use in src/stop/tui.py).

The embedding models the JSON payloads the aggregation functions receive and
the polars DataFrame operations they perform:

* a decoded top-level payload is `Option (PyDict R)`: `none` is Python None,
  and a dict is modelled by whether the expected top-level key ("sinfo",
  "jobs", "nodes") is present, its record list when present, and whether any
  other key is present (to capture Python dict truthiness);
* records are structures holding exactly the fields slurm.py reads, with the
  nested sub-objects (partition.name, nodes.total, eligible_time.number, ...)
  flattened into one field each;
* a DataFrame handed to the display layer is a `SummaryTable`: ordered column
  names plus ordered rows of cells;
* polars group_by/agg is grouping by distinct key with per-group sums
  (group emission order in polars is unspecified; the model fixes the order
  produced by `List.dedup`, which the subsequent sorts make irrelevant);
* DataFrame.sort is modelled by insertion sort (polars sorts are not
  guaranteed stable here, so any correctly sorted order is a faithful model);
* operations that raise in Python (KeyError on a missing top-level key after
  a truthiness-only check, polars ColumnNotFoundError when a referenced
  column does not exist, e.g. on an empty record list) return `Except.error`;
* numbers are exact: integer cells are `Int`, and the float statistics of the
  pending-job summary are modelled by `Rat` (the values involved are exact
  divisions of machine-small integers).
-/

/-- A cell of a table handed to the display layer: string, integer or numeric
(float, modelled exactly) value. -/
inductive Cell where
  | str : String → Cell
  | int : Int → Cell
  | rat : Rat → Cell
deriving DecidableEq, Repr

/-- A polars DataFrame as consumed by the display layer: ordered column names
plus ordered rows. -/
structure SummaryTable where
  cols : List String
  rows : List (List Cell)
deriving DecidableEq, Repr

/-- A JSON-decoded top-level payload as the aggregation functions see it.
`payload` is the value of the expected top-level key when that key is present;
`extra` records whether the dict has any other key, so that Python truthiness
of the dict is `payload.isSome || extra`. The whole argument is wrapped in
`Option`; `none` models Python None. -/
structure PyDict (α : Type) where
  payload : Option (List α)
  extra : Bool
deriving DecidableEq, Repr

/-- One record of the top-level "sinfo" list of sinfo --json, flattened to the
fields slurm.py reads: partition.name, nodes.{total,idle,allocated},
cpus.{total,idle,allocated}. `availability` and `state` are optional fields:
process_partition_list adds their columns only when the field occurs in the
payload. -/
structure PartitionRecord where
  partition_name : String
  nodes_total : Int
  nodes_idle : Int
  nodes_allocated : Int
  cpus_total : Int
  cpus_idle : Int
  cpus_allocated : Int
  availability : Option String
  state : Option String
deriving DecidableEq, Repr

/-- One record of the top-level "jobs" list of squeue --json, flattened to the
fields slurm.py reads: account, user_name, the job_state list, and the
.number sub-fields of eligible_time and start_time. -/
structure JobRecord where
  account : String
  user_name : String
  job_state : List String
  eligible_time_number : Int
  start_time_number : Int
deriving DecidableEq, Repr

/-- One record of the top-level "nodes" list of scontrol show nodes --json,
with the fields slurm.py reads. -/
structure NodeRecord where
  name : String
  state : List String
  cpus : Int
  alloc_cpus : Int
  real_memory : Int
  alloc_memory : Int
  partitions : List String
  cpu_load : Rat
deriving DecidableEq, Repr

/-- Sort key of the descending sorts in slurm.py: both the partition summary
(Total Nodes) and the job summaries (Total Jobs) sort on the integer cell at
column index 1. -/
def intKeyAt1 (r : List Cell) : Int :=
  match r.get? 1 with
  | some (Cell.int i) => i
  | _ => 0

/-- Row order of a descending sort on the integer cell at index 1. -/
def descAt1 (a b : List Cell) : Prop := intKeyAt1 b ≤ intKeyAt1 a

instance : DecidableRel descAt1 := fun _ _ => inferInstanceAs (Decidable (_ ≤ _))

instance : IsTotal (List Cell) descAt1 :=
  ⟨fun a b => le_total (intKeyAt1 b) (intKeyAt1 a)⟩

instance : IsTrans (List Cell) descAt1 :=
  ⟨fun _ _ _ h1 h2 => le_trans h2 h1⟩

/-- Sort key of the ascending sorts in slurm.py (node list by Node Name,
partition list by Partition Name): the string cell at column index 0. -/
def strKeyAt0 (r : List Cell) : String :=
  match r.get? 0 with
  | some (Cell.str s) => s
  | _ => ""

/-- Row order of an ascending sort on the string cell at index 0. -/
def ascAt0 (a b : List Cell) : Prop := strKeyAt0 a ≤ strKeyAt0 b

instance : DecidableRel ascAt0 := fun _ _ => inferInstanceAs (Decidable (_ ≤ _))

instance : IsTotal (List Cell) ascAt0 :=
  ⟨fun a b => le_total (strKeyAt0 a) (strKeyAt0 b)⟩

instance : IsTrans (List Cell) ascAt0 :=
  ⟨fun _ _ _ h1 h2 => le_trans h1 h2⟩

/-- Python int() on an exact numeric value: truncation toward zero. -/
def pyInt (q : Rat) : Int := Int.tdiv q.num (q.den : Int)

/-- format_seconds_to_human_readable (slurm.py:251-262): None gives "N/A",
otherwise truncate to an integer and decompose by successive floor division
and modulus (Python // and % on ints are `Int.fdiv` and `Int.fmod`). -/
def format_seconds_to_human_readable : Option Rat → String
  | none => "N/A"
  | some q =>
    let s0 : Int := pyInt q
    let days := Int.fdiv s0 (24 * 3600)
    let s1 := Int.fmod s0 (24 * 3600)
    let hours := Int.fdiv s1 3600
    let s2 := Int.fmod s1 3600
    let minutes := Int.fdiv s2 60
    let seconds := Int.fmod s2 60
    s!"{days}d {hours}h {minutes}m {seconds}s"

/-- Column schema of the partition rollup (slurm.py:74-81 aliases). -/
def partitionSummaryCols : List String :=
  ["Partition", "Total Nodes", "Idle Nodes", "Allocated Nodes",
   "Total CPUs", "Free CPUs", "Allocated CPUs"]

/-- Sum of one numeric sub-field over the sinfo records of one partition
group: the polars group_by(partition.name).agg(sum) semantics. -/
def partitionSum (rs : List PartitionRecord) (n : String)
    (f : PartitionRecord → Int) : Int :=
  ((rs.filter (fun r => r.partition_name == n)).map f).sum

/-- One aggregated row of the partition rollup for partition `n`. -/
def partitionSummaryRow (rs : List PartitionRecord) (n : String) : List Cell :=
  [Cell.str n,
   Cell.int (partitionSum rs n (·.nodes_total)),
   Cell.int (partitionSum rs n (·.nodes_idle)),
   Cell.int (partitionSum rs n (·.nodes_allocated)),
   Cell.int (partitionSum rs n (·.cpus_total)),
   Cell.int (partitionSum rs n (·.cpus_idle)),
   Cell.int (partitionSum rs n (·.cpus_allocated))]

/-- process_partition_summary (slurm.py:66-83). A falsy argument (None or an
empty dict) returns None after a diagnostic print. The function only checks
truthiness, so a non-empty dict without the "sinfo" key raises KeyError at
sinfo_data["sinfo"]; with an empty record list, pl.DataFrame([]) has no
columns and the group_by raises ColumnNotFoundError. Otherwise: group by
partition name, sum the six sub-fields, sort descending by Total Nodes. -/
def process_partition_summary (d : Option (PyDict PartitionRecord)) :
    Except String (Option SummaryTable) :=
  match d with
  | none => .ok none
  | some p =>
    if p.payload.isNone && !p.extra then .ok none
    else
      match p.payload with
      | none => .error "KeyError: sinfo"
      | some rs =>
        if rs.isEmpty then .error "ColumnNotFoundError: partition"
        else
          .ok (some
            { cols := partitionSummaryCols,
              rows := List.insertionSort descAt1
                (((rs.map (·.partition_name)).dedup).map (partitionSummaryRow rs)) })

/-- Column schema of the empty-input job summary DataFrames
(slurm.py:89-102), with the grouping key name substituted. -/
def jobEmptyCols (key : String) : List String :=
  [key, "Total Jobs", "RUNNING", "PENDING", "COMPLETED"]

/-- One grouped job summary (by account or by user_name) for a non-empty jobs
list (slurm.py:105-148). The jobs are exploded into (key, state) pairs; the
pivot makes one column per distinct observed state; fill_null(0) gives count
0 to a state a key never shows; the separately joined Total Jobs column is
computed from the exploded frame (slurm.py:121 and 140), so it counts
(job, state) pairs; finally the key and Total Jobs columns lead and rows are
sorted descending by Total Jobs. -/
def jobSummaryTable (key : JobRecord → String) (keyCol : String)
    (js : List JobRecord) : SummaryTable :=
  let exploded := js.flatMap (fun j => j.job_state.map (fun s => (key j, s)))
  let stateCols := (exploded.map (·.2)).dedup
  let keys := (exploded.map (·.1)).dedup
  let row := fun (k : String) =>
    Cell.str k ::
    Cell.int ((exploded.filter (fun p => p.1 == k)).length : Int) ::
    stateCols.map (fun s =>
      Cell.int ((exploded.filter (fun p => p.1 == k && p.2 == s)).length : Int))
  { cols := keyCol :: "Total Jobs" :: stateCols,
    rows := List.insertionSort descAt1 (keys.map row) }

/-- process_job_summaries (slurm.py:85-148): when the payload is None, has no
"jobs" key, or its jobs list is empty, return the two fixed-schema empty
DataFrames; otherwise build the account and user summaries from the exploded
job states. -/
def process_job_summaries (d : Option (PyDict JobRecord)) :
    SummaryTable × SummaryTable :=
  match d with
  | some ⟨some (j :: js), _⟩ =>
    (jobSummaryTable (·.account) "account" (j :: js),
     jobSummaryTable (·.user_name) "user_name" (j :: js))
  | _ =>
    ({ cols := jobEmptyCols "account", rows := [] },
     { cols := jobEmptyCols "user_name", rows := [] })

/-- The fixed broken-state vocabulary of process_node_summary
(slurm.py:165). -/
def broken_states : List String :=
  ["DRAINED", "DRAINING", "DRAIN", "DOWN", "FAIL", "NO_RESPOND",
   "POWER_DOWN", "POWER_UP", "RESUME", "UNKNOWN"]

/-- The or-chain of state.list.contains(s) conditions built by the loop at
slurm.py:166-171. -/
def nodeIsBroken (n : NodeRecord) : Bool :=
  broken_states.any (fun s => n.state.contains s)

/-- The mixed-node condition 0 < alloc_cpus < cpus (slurm.py:181-183). -/
def nodeIsMixed (n : NodeRecord) : Bool :=
  0 < n.alloc_cpus && n.alloc_cpus < n.cpus

/-- The Metric/Value rows of the node summary (slurm.py:185-196). -/
def nodeSummaryRows (ns : List NodeRecord) : List (List Cell) :=
  [[Cell.str "Total Nodes", Cell.int (ns.length : Int)],
   [Cell.str "Total CPUs", Cell.int ((ns.map (·.cpus)).sum)],
   [Cell.str "Total Memory (MB)", Cell.int ((ns.map (·.real_memory)).sum)],
   [Cell.str "Allocated CPUs", Cell.int ((ns.map (·.alloc_cpus)).sum)],
   [Cell.str "Allocated Memory (MB)", Cell.int ((ns.map (·.alloc_memory)).sum)],
   [Cell.str "Broken Nodes", Cell.int ((ns.filter nodeIsBroken).length : Int)],
   [Cell.str "Nodes in Reservation",
    Cell.int ((ns.filter (fun n => n.state.contains "RESERVATION")).length : Int)],
   [Cell.str "Mixed Nodes", Cell.int ((ns.filter nodeIsMixed).length : Int)]]

/-- process_node_summary (slurm.py:150-197): None or a dict without the
"nodes" key returns None (here the key is checked); an empty node list makes
pl.col("cpus") raise ColumnNotFoundError; otherwise the Metric/Value
rollup. -/
def process_node_summary (d : Option (PyDict NodeRecord)) :
    Except String (Option SummaryTable) :=
  match d with
  | none => .ok none
  | some p =>
    match p.payload with
    | none => .ok none
    | some [] => .error "ColumnNotFoundError: cpus"
    | some ns => .ok (some { cols := ["Metric", "Value"], rows := nodeSummaryRows ns })

/-- Column schema of the node list (slurm.py:207-217 aliases). -/
def nodeListCols : List String :=
  ["Node Name", "State", "Total Cores", "Allocated Cores", "Total Memory (MB)",
   "Allocated Memory (MB)", "Free Memory (MB)", "Partitions", "CPU Load"]

/-- One row of the node list (slurm.py:207-217): renamed fields, the state
and partition lists comma-joined, and Free Memory = real - allocated. -/
def nodeListRow (n : NodeRecord) : List Cell :=
  [Cell.str n.name,
   Cell.str (String.intercalate ", " n.state),
   Cell.int n.cpus,
   Cell.int n.alloc_cpus,
   Cell.int n.real_memory,
   Cell.int n.alloc_memory,
   Cell.int (n.real_memory - n.alloc_memory),
   Cell.str (String.intercalate ", " n.partitions),
   Cell.rat n.cpu_load]

/-- process_node_list (slurm.py:199-219): None or a missing "nodes" key
returns None; an empty node list raises in polars; otherwise one row per
node, sorted ascending by Node Name. -/
def process_node_list (d : Option (PyDict NodeRecord)) :
    Except String (Option SummaryTable) :=
  match d with
  | none => .ok none
  | some p =>
    match p.payload with
    | none => .ok none
    | some [] => .error "ColumnNotFoundError: name"
    | some ns =>
      .ok (some { cols := nodeListCols,
                  rows := List.insertionSort ascAt0 (ns.map nodeListRow) })

/-- The six always-present aggregation columns of the partition list,
preceded by its grouping column (slurm.py:229-236, 245-247). -/
def partitionListBaseCols : List String :=
  ["Partition Name", "Total Nodes", "Idle Nodes", "Allocated Nodes",
   "Total CPUs", "Free CPUs", "Allocated CPUs"]

/-- Comma-join of the distinct present values of an optional record field
within one partition group, modelling the unique-and-join aggregation of
slurm.py:239-242 (polars unique order is unspecified; dedup order here). -/
def joinedUnique (rs : List PartitionRecord) (n : String)
    (f : PartitionRecord → Option String) : String :=
  String.intercalate ", "
    (((rs.filter (fun r => r.partition_name == n)).filterMap f).dedup)

/-- One row of the partition list for partition `n`: the six sums, then the
Availability and State aggregates when those fields are present. -/
def partitionListRow (availPresent statePresent : Bool)
    (rs : List PartitionRecord) (n : String) : List Cell :=
  [Cell.str n,
   Cell.int (partitionSum rs n (·.nodes_total)),
   Cell.int (partitionSum rs n (·.nodes_idle)),
   Cell.int (partitionSum rs n (·.nodes_allocated)),
   Cell.int (partitionSum rs n (·.cpus_total)),
   Cell.int (partitionSum rs n (·.cpus_idle)),
   Cell.int (partitionSum rs n (·.cpus_allocated))]
  ++ (if availPresent then [Cell.str (joinedUnique rs n (·.availability))] else [])
  ++ (if statePresent then [Cell.str (joinedUnique rs n (·.state))] else [])

/-- process_partition_list (slurm.py:221-249): None or a missing "sinfo" key
returns None (the key is checked here, unlike process_partition_summary); an
empty record list raises in polars; otherwise group by partition name with
the six sums, appending Availability and State columns only when those
fields occur in the payload (polars schema inference on the record dicts),
sorted ascending by Partition Name. -/
def process_partition_list (d : Option (PyDict PartitionRecord)) :
    Except String (Option SummaryTable) :=
  match d with
  | none => .ok none
  | some p =>
    match p.payload with
    | none => .ok none
    | some [] => .error "ColumnNotFoundError: partition"
    | some rs =>
      let availPresent := rs.any (fun r => r.availability.isSome)
      let statePresent := rs.any (fun r => r.state.isSome)
      .ok (some
        { cols := partitionListBaseCols
            ++ (if availPresent then ["Availability"] else [])
            ++ (if statePresent then ["State"] else []),
          rows := List.insertionSort ascAt0
            (((rs.map (·.partition_name)).dedup).map
              (partitionListRow availPresent statePresent rs)) })

/-- The pending-job filter of slurm.py:275-279: job_state contains PENDING
and both time fields are non-zero. -/
def pendingQualifies (j : JobRecord) : Bool :=
  j.job_state.contains "PENDING" &&
  j.eligible_time_number != 0 && j.start_time_number != 0

/-- The zero-valued Metric/Value rows returned on the degraded paths of the
pending-job waiting time summary (slurm.py:268-271 and 285-288). -/
def zeroWaitRows : List (List Cell) :=
  [[Cell.str "Max Waiting Time", Cell.str "0d 0h 0m 0s"],
   [Cell.str "Median Waiting Time", Cell.str "0d 0h 0m 0s"],
   [Cell.str "Mean Waiting Time", Cell.str "0d 0h 0m 0s"]]

/-- polars max of an integer column (non-empty): fold of the binary max. -/
def pmax (l : List Int) : Int := l.foldl max ((l.head?).getD 0)

/-- polars median of an integer column: the middle element of the sorted
values, or the mean of the two middle elements for an even count. -/
def pmedian (l : List Int) : Rat :=
  let s := List.insertionSort (fun a b : Int => a ≤ b) l
  if l.length % 2 = 1 then (((s.get? (l.length / 2)).getD 0 : Int) : Rat)
  else Rat.divInt ((s.get? (l.length / 2 - 1)).getD 0 + (s.get? (l.length / 2)).getD 0) 2

/-- polars mean of an integer column: exact rational division of sum by
count. -/
def pmean (l : List Int) : Rat := Rat.divInt l.sum (l.length : Int)

/-- process_pending_job_waiting_times_summary (slurm.py:264-303). Degraded
input (None, no "jobs" key, empty jobs list) and an empty filter result both
give the three zero-valued rows; otherwise the max, median and mean of
start_time.number - eligible_time.number over the qualifying jobs, formatted
by format_seconds_to_human_readable. -/
def process_pending_job_waiting_times_summary (d : Option (PyDict JobRecord)) :
    SummaryTable :=
  match d with
  | some ⟨some (j :: js), _⟩ =>
    let waits := ((j :: js).filter pendingQualifies).map
      (fun j => j.start_time_number - j.eligible_time_number)
    if waits.isEmpty then { cols := ["Metric", "Value"], rows := zeroWaitRows }
    else
      { cols := ["Metric", "Value"],
        rows :=
          [[Cell.str "Max Waiting Time",
            Cell.str (format_seconds_to_human_readable (some ((pmax waits : Int) : Rat)))],
           [Cell.str "Median Waiting Time",
            Cell.str (format_seconds_to_human_readable (some (pmedian waits)))],
           [Cell.str "Mean Waiting Time",
            Cell.str (format_seconds_to_human_readable (some (pmean waits)))]] }
  | _ => { cols := ["Metric", "Value"], rows := zeroWaitRows }

/-- Outcome of the awaited subprocess inside get_slurm_data: the process
completed with an exit code and captured streams, or spawning raised
FileNotFoundError, or some other exception was raised. -/
inductive SubprocessOutcome where
  | completed (returncode : Int) (stdout : String) (stderr : String)
  | fileNotFound
  | otherException (msg : String)
deriving DecidableEq, Repr

/-- get_slurm_data (slurm.py:5-26), abstracted over the subprocess outcome
and the JSON decoder (json.loads modelled as `String → Option α`, `none`
standing for a raised and caught json.JSONDecodeError). Every failure path
prints a diagnostic and returns None; only a zero exit with decodable stdout
returns the decoded document. -/
def get_slurm_data {α : Type} (decodeJson : String → Option α) :
    SubprocessOutcome → Option α
  | .completed rc out _ => if rc ≠ 0 then none else decodeJson out
  | .fileNotFound => none
  | .otherException _ => none

/-- get_all_slurm_data (slurm.py:48-60): the dict literal built from the
three gathered fetch results, as an ordered association list of keys to
optional decoded payloads. -/
def get_all_slurm_data {α : Type} (sinfoResult squeueResult scontrolResult : Option α) :
    List (String × Option α) :=
  [("sinfo", sinfoResult), ("squeue", squeueResult), ("scontrol", scontrolResult)]

/-- Python dict subscription d[k] on the modelled dict: `none` models a
raised KeyError. -/
def dictLookup {α : Type} (d : List (String × Option α)) (k : String) :
    Option (Option α) :=
  (d.find? (fun p => p.1 == k)).map (·.2)

/-- The lookup the home view performs on every refresh (tui.py:367 and
tui.py:419): all_data["current_time"]. -/
def homeRefreshCurrentTime {α : Type} (allData : List (String × Option α)) :
    Option (Option α) :=
  dictLookup allData "current_time"

/-- Total projection of a fallible optional table result; degraded and error
results project to the empty table. Used to state theorems without
existential quantification over the produced table. -/
def tableOf (r : Except String (Option SummaryTable)) : SummaryTable :=
  match r with
  | .ok (some t) => t
  | _ => { cols := [], rows := [] }

/-- C8: format_seconds_to_human_readable returns "N/A" for None and otherwise
truncates its argument to an integer and decomposes it by integer division
into days, hours, minutes and seconds; in particular it maps 0 to
"0d 0h 0m 0s", 60 to "0d 0h 1m 0s", 3600 to "0d 1h 0m 0s", 86400 to
"1d 0h 0m 0s", and 90061 to "1d 1h 1m 1s". -/
theorem C8_format_seconds_spec :
    format_seconds_to_human_readable none = "N/A" ∧
    (∀ q : Rat, format_seconds_to_human_readable (some q) =
      (let x := pyInt q
       let days := Int.fdiv x 86400
       let hours := Int.fdiv (Int.fmod x 86400) 3600
       let minutes := Int.fdiv (Int.fmod (Int.fmod x 86400) 3600) 60
       let seconds := Int.fmod (Int.fmod (Int.fmod x 86400) 3600) 60
       s!"{days}d {hours}h {minutes}m {seconds}s")) ∧
    format_seconds_to_human_readable (some ((0 : Int) : Rat)) = "0d 0h 0m 0s" ∧
    format_seconds_to_human_readable (some ((60 : Int) : Rat)) = "0d 0h 1m 0s" ∧
    format_seconds_to_human_readable (some ((3600 : Int) : Rat)) = "0d 1h 0m 0s" ∧
    format_seconds_to_human_readable (some ((86400 : Int) : Rat)) = "1d 0h 0m 0s" ∧
    format_seconds_to_human_readable (some ((90061 : Int) : Rat)) = "1d 1h 1m 1s" := by
  refine ⟨rfl, fun q => rfl, ?_, ?_, ?_, ?_, ?_⟩ <;> decide

/-- C3: the claim says every aggregation function returns normally on any
structurally valid input, including a dict without the expected top-level
key. process_partition_summary checks only truthiness before subscripting
sinfo_data["sinfo"], so a non-empty dict without that key raises KeyError:
the embedding returns the error outcome at such an input. -/
theorem C3_partition_summary_missing_key_raises :
    process_partition_summary (some { payload := none, extra := true }) =
      Except.error "KeyError: sinfo" := rfl

/-- The single two-state job exhibiting the Total Jobs divergence of C1. -/
def c1_jobs : List JobRecord :=
  [{ account := "acct1", user_name := "user1", job_state := ["RUNNING", "PENDING"],
     eligible_time_number := 0, start_time_number := 0 }]

/-- C1: the claim says Total Jobs counts each distinct job once regardless of
how many states it reports. The code computes Total Jobs from the exploded
(job, state) frame (slurm.py:121,140): for the single job of c1_jobs, which
carries two states, the account summary reports Total Jobs = 2 although the
number of distinct jobs with that account is 1. The per-state counts (one
per (job, state) pair) are 1 and 1 as the claim states. -/
theorem C1_total_jobs_counts_exploded_rows :
    (process_job_summaries (some { payload := some c1_jobs, extra := false })).1.rows =
      [[Cell.str "acct1", Cell.int 2, Cell.int 1, Cell.int 1]] ∧
    ((c1_jobs.map (·.account)).dedup).length = 1 := by
  exact ⟨rfl, rfl⟩

/-- C9: get_slurm_data returns None on each of the four failure outcomes
(non-zero exit, executable not found, undecodable JSON, any other exception)
and the decoded document exactly on a zero exit with decodable output. -/
theorem C9_get_slurm_data_failure_paths {α : Type} (decodeJson : String → Option α) :
    (∀ rc out err, rc ≠ 0 →
      get_slurm_data decodeJson (.completed rc out err) = none) ∧
    get_slurm_data decodeJson SubprocessOutcome.fileNotFound = none ∧
    (∀ out err, decodeJson out = none →
      get_slurm_data decodeJson (.completed 0 out err) = none) ∧
    (∀ msg, get_slurm_data decodeJson (.otherException msg) = none) ∧
    (∀ out err v, decodeJson out = some v →
      get_slurm_data decodeJson (.completed 0 out err) = some v) := by
  refine ⟨?_, rfl, ?_, fun msg => rfl, ?_⟩
  · intro rc out err h
    simp [get_slurm_data, h]
  · intro out err h
    simp [get_slurm_data, h]
  · intro out err v h
    simp [get_slurm_data, h]

/-- A concrete decoder for the C9 witness: decodes the text "ok" only. -/
def c9_decode : String → Option Nat := fun s => if s = "ok" then some 7 else none

/-- Witness for C9 at concrete outcomes: a failing exit code, a missing
executable, undecodable output, an unexpected exception, and a success. -/
theorem C9_get_slurm_data_failure_paths_witness :
    get_slurm_data c9_decode (.completed 1 "out" "boom") = none ∧
    get_slurm_data c9_decode SubprocessOutcome.fileNotFound = none ∧
    get_slurm_data c9_decode (.completed 0 "bad" "") = none ∧
    get_slurm_data c9_decode (.otherException "oops") = none ∧
    get_slurm_data c9_decode (.completed 0 "ok" "") = some 7 :=
  ⟨(C9_get_slurm_data_failure_paths c9_decode).1 1 "out" "boom" (by decide),
   (C9_get_slurm_data_failure_paths c9_decode).2.1,
   (C9_get_slurm_data_failure_paths c9_decode).2.2.1 "bad" "" (by decide),
   (C9_get_slurm_data_failure_paths c9_decode).2.2.2.1 "oops",
   (C9_get_slurm_data_failure_paths c9_decode).2.2.2.2 "ok" "" 7 (by decide)⟩

/-- C10: the mapping built by get_all_slurm_data has exactly the keys
"sinfo", "squeue" and "scontrol", each bound to the corresponding fetch
result, and holds no "current_time" key: the lookup the home view performs
on that mapping (tui.py:367,419) finds nothing. -/
theorem C10_get_all_slurm_data_keys {α : Type} (r0 r1 r2 : Option α) :
    (get_all_slurm_data r0 r1 r2).map Prod.fst = ["sinfo", "squeue", "scontrol"] ∧
    dictLookup (get_all_slurm_data r0 r1 r2) "sinfo" = some r0 ∧
    dictLookup (get_all_slurm_data r0 r1 r2) "squeue" = some r1 ∧
    dictLookup (get_all_slurm_data r0 r1 r2) "scontrol" = some r2 ∧
    homeRefreshCurrentTime (get_all_slurm_data r0 r1 r2) = none :=
  ⟨rfl, rfl, rfl, rfl, rfl⟩

/-- The degraded squeue inputs of C7: None, a dict without the "jobs" key, or
an empty jobs list. -/
def jobsInputDegraded (d : Option (PyDict JobRecord)) : Prop :=
  ∀ p js, d = some p → p.payload = some js → js = []

/-- C7: for a squeue payload that is None, lacks the "jobs" key, or has an
empty jobs list, process_job_summaries returns two zero-row tables whose
columns are exactly account (respectively user_name), Total Jobs, RUNNING,
PENDING, COMPLETED. -/
theorem C7_empty_job_summaries (d : Option (PyDict JobRecord))
    (h : jobsInputDegraded d) :
    process_job_summaries d =
      ({ cols := ["account", "Total Jobs", "RUNNING", "PENDING", "COMPLETED"],
         rows := [] },
       { cols := ["user_name", "Total Jobs", "RUNNING", "PENDING", "COMPLETED"],
         rows := [] }) := by
  match d with
  | none => rfl
  | some { payload := none, extra := e } => rfl
  | some { payload := some [], extra := e } => rfl
  | some { payload := some (j :: js), extra := e } =>
    exact absurd (h _ _ rfl rfl) (by simp)

/-- Witness for C7 at the concrete degraded input None. -/
theorem C7_empty_job_summaries_witness :
    process_job_summaries none =
      ({ cols := ["account", "Total Jobs", "RUNNING", "PENDING", "COMPLETED"],
         rows := [] },
       { cols := ["user_name", "Total Jobs", "RUNNING", "PENDING", "COMPLETED"],
         rows := [] }) :=
  C7_empty_job_summaries none (fun _ _ h _ => nomatch h)

/-- The per-job state multiset of the exploded (key, state) pairs does not
depend on the grouping key: it is the concatenation of the job_state
lists. -/
theorem exploded_states_eq (key : JobRecord → String) (js : List JobRecord) :
    (js.flatMap (fun j => j.job_state.map (fun s => (key j, s)))).map (·.2) =
      js.flatMap (fun j => j.job_state) := by
  induction js with
  | nil => rfl
  | cons j js ih =>
    simp only [List.flatMap_cons, List.map_append, List.map_map, ih,
      List.append_cancel_right_eq]
    simp [Function.comp]

/-- A partition record carrying the optional availability field, and one
carrying no optional field, for the schema-variance part of C2. -/
def c2_rec_avail : PartitionRecord :=
  { partition_name := "p1", nodes_total := 1, nodes_idle := 1, nodes_allocated := 0,
    cpus_total := 4, cpus_idle := 4, cpus_allocated := 0,
    availability := some "UP", state := none }

/-- A partition record with neither availability nor state present. -/
def c2_rec_plain : PartitionRecord :=
  { partition_name := "p1", nodes_total := 1, nodes_idle := 1, nodes_allocated := 0,
    cpus_total := 4, cpus_idle := 4, cpus_allocated := 0,
    availability := none, state := none }

/-- A job whose only state is FAILED, for the schema-variance part of C2. -/
def c2_failed_job : JobRecord :=
  { account := "a1", user_name := "u1", job_state := ["FAILED"],
    eligible_time_number := 0, start_time_number := 0 }

/-- C2 counterexample: the claim says every aggregation function returns a
table with a fixed schema for every input including None and never returns
None; process_partition_summary applied to None returns None (no table). -/
theorem C2_counterexample_partition_summary_none :
    process_partition_summary (none : Option (PyDict PartitionRecord)) =
      Except.ok none := rfl

/-- A partition record carrying only the optional state field, for the
schema-variance part of C2. -/
def c2_rec_state : PartitionRecord :=
  { partition_name := "p1", nodes_total := 1, nodes_idle := 1, nodes_allocated := 0,
    cpus_total := 4, cpus_idle := 4, cpus_allocated := 0,
    availability := none, state := some "up" }

/-- C2 (amended): for every input the pending wait-time summary is a table
with exactly the columns Metric, Value, and the two job-summary tables are
tables whose columns begin with the grouping key (account, user_name) and
Total Jobs, with the columns exactly account (user_name), Total Jobs,
RUNNING, PENDING, COMPLETED when the squeue input is None, lacks the jobs
key, or has an empty jobs list. The other four aggregation functions do not
satisfy the claim: the partition summary returns None (no table) for None
and for a falsy empty dict but raises KeyError on a truthy dict without the
sinfo key; the partition list, node summary and node list return None for
None and whenever the expected top-level key is absent; and for non-empty
inputs the schemas depend on the input: the partition list carries the
Availability (State) column only when that field occurs in the payload, and
the job-summary state columns are the distinct states observed in the input
(exactly FAILED for a payload whose only job state is FAILED). -/
theorem C2_schema_behavior :
    (∀ d : Option (PyDict JobRecord),
      (process_pending_job_waiting_times_summary d).cols = ["Metric", "Value"]) ∧
    (∀ d : Option (PyDict JobRecord), ∃ rest : List String,
      (process_job_summaries d).1.cols = "account" :: "Total Jobs" :: rest ∧
      (process_job_summaries d).2.cols = "user_name" :: "Total Jobs" :: rest) ∧
    (∀ d : Option (PyDict JobRecord), jobsInputDegraded d →
      (process_job_summaries d).1.cols =
        ["account", "Total Jobs", "RUNNING", "PENDING", "COMPLETED"] ∧
      (process_job_summaries d).2.cols =
        ["user_name", "Total Jobs", "RUNNING", "PENDING", "COMPLETED"]) ∧
    process_partition_summary (none : Option (PyDict PartitionRecord)) = .ok none ∧
    process_partition_summary (some { payload := none, extra := false }) = .ok none ∧
    process_partition_summary (some { payload := none, extra := true }) =
      .error "KeyError: sinfo" ∧
    (process_partition_list (none : Option (PyDict PartitionRecord)) = .ok none ∧
      ∀ e : Bool, process_partition_list (some { payload := none, extra := e }) = .ok none) ∧
    (process_node_summary (none : Option (PyDict NodeRecord)) = .ok none ∧
      ∀ e : Bool, process_node_summary (some { payload := none, extra := e }) = .ok none) ∧
    (process_node_list (none : Option (PyDict NodeRecord)) = .ok none ∧
      ∀ e : Bool, process_node_list (some { payload := none, extra := e }) = .ok none) ∧
    (tableOf (process_partition_list
        (some { payload := some [c2_rec_avail], extra := false }))).cols =
      partitionListBaseCols ++ ["Availability"] ∧
    (tableOf (process_partition_list
        (some { payload := some [c2_rec_state], extra := false }))).cols =
      partitionListBaseCols ++ ["State"] ∧
    (tableOf (process_partition_list
        (some { payload := some [c2_rec_plain], extra := false }))).cols =
      partitionListBaseCols ∧
    (process_job_summaries
        (some { payload := some [c2_failed_job], extra := false })).1.cols =
      ["account", "Total Jobs", "FAILED"] := by
  refine ⟨?_, ?_, ?_, rfl, rfl, rfl, ⟨rfl, fun _ => rfl⟩, ⟨rfl, fun _ => rfl⟩,
    ⟨rfl, fun _ => rfl⟩, rfl, rfl, rfl, rfl⟩
  · intro d
    match d with
    | none => rfl
    | some { payload := none, extra := e } => rfl
    | some { payload := some [], extra := e } => rfl
    | some { payload := some (j :: js), extra := e } =>
      show (if (((j :: js).filter pendingQualifies).map
          (fun j => j.start_time_number - j.eligible_time_number)).isEmpty
        then _ else _ : SummaryTable).cols = _
      split <;> rfl
  · intro d
    match d with
    | none => exact ⟨["RUNNING", "PENDING", "COMPLETED"], rfl, rfl⟩
    | some { payload := none, extra := e } =>
      exact ⟨["RUNNING", "PENDING", "COMPLETED"], rfl, rfl⟩
    | some { payload := some [], extra := e } =>
      exact ⟨["RUNNING", "PENDING", "COMPLETED"], rfl, rfl⟩
    | some { payload := some (j :: js), extra := e } =>
      refine ⟨(((j :: js).flatMap (fun jb => jb.job_state))).dedup, ?_, ?_⟩
      · show ("account" :: "Total Jobs" ::
          (((j :: js).flatMap (fun jb =>
            jb.job_state.map (fun s => (jb.account, s)))).map (·.2)).dedup) = _
        rw [exploded_states_eq]
      · show ("user_name" :: "Total Jobs" ::
          (((j :: js).flatMap (fun jb =>
            jb.job_state.map (fun s => (jb.user_name, s)))).map (·.2)).dedup) = _
        rw [exploded_states_eq]
  · intro d h
    match d with
    | none => exact ⟨rfl, rfl⟩
    | some { payload := none, extra := e } => exact ⟨rfl, rfl⟩
    | some { payload := some [], extra := e } => exact ⟨rfl, rfl⟩
    | some { payload := some (j :: js), extra := e } =>
      exact absurd (h _ _ rfl rfl) (by simp)

/-- The claim-side qualification predicate of C4: the state set contains
PENDING and both the eligible and start epoch values are non-zero. -/
def specPendingQualifies (j : JobRecord) : Prop :=
  "PENDING" ∈ j.job_state ∧ j.eligible_time_number ≠ 0 ∧ j.start_time_number ≠ 0

instance (j : JobRecord) : Decidable (specPendingQualifies j) := by
  unfold specPendingQualifies
  infer_instance

/-- The jobs list carried by a squeue payload; empty for the degraded
inputs. -/
def payloadJobs (d : Option (PyDict JobRecord)) : List JobRecord :=
  match d with
  | some { payload := some js, extra := _ } => js
  | _ => []

/-- The jobs of a payload that qualify for the pending wait-time summary. -/
def qualifyingJobs (d : Option (PyDict JobRecord)) : List JobRecord :=
  (payloadJobs d).filter (fun j => decide (specPendingQualifies j))

/-- The waits (start minus eligible) of the qualifying jobs of a payload. -/
def waitTimes (d : Option (PyDict JobRecord)) : List Int :=
  (qualifyingJobs d).map (fun j => j.start_time_number - j.eligible_time_number)

/-- The Boolean filter of the code agrees pointwise with the claim-side
qualification predicate. -/
theorem pendingQualifies_eq_spec (j : JobRecord) :
    pendingQualifies j = decide (specPendingQualifies j) := by
  rw [Bool.eq_iff_iff, decide_eq_true_eq]
  simp [pendingQualifies, specPendingQualifies, List.contains, List.elem_iff,
    and_assoc]

/-- The fold-based polars max equals the maximum of a non-empty column. -/
theorem pmax_eq_max (x : Int) (l : List Int) :
    pmax (x :: l) = ((x :: l).max?).getD 0 := by
  show (x :: l).foldl max x = l.foldl max x
  rw [List.foldl_cons, max_self]

/-- C4: the pending wait-time summary is computed from exactly the jobs whose
job_state contains PENDING with non-zero eligible and start times, with
wait = start - eligible; its three rows are the max, median and arithmetic
mean of those waits formatted by format_seconds_to_human_readable, and all
three values are "0d 0h 0m 0s" when no job qualifies. -/
theorem C4_pending_wait_times (d : Option (PyDict JobRecord)) :
    (process_pending_job_waiting_times_summary d).cols = ["Metric", "Value"] ∧
    (qualifyingJobs d = [] →
      (process_pending_job_waiting_times_summary d).rows =
        [[Cell.str "Max Waiting Time", Cell.str "0d 0h 0m 0s"],
         [Cell.str "Median Waiting Time", Cell.str "0d 0h 0m 0s"],
         [Cell.str "Mean Waiting Time", Cell.str "0d 0h 0m 0s"]]) ∧
    (qualifyingJobs d ≠ [] →
      (process_pending_job_waiting_times_summary d).rows =
        [[Cell.str "Max Waiting Time",
          Cell.str (format_seconds_to_human_readable
            (some ((((waitTimes d).max?).getD 0 : Int) : Rat)))],
         [Cell.str "Median Waiting Time",
          Cell.str (format_seconds_to_human_readable (some (pmedian (waitTimes d))))],
         [Cell.str "Mean Waiting Time",
          Cell.str (format_seconds_to_human_readable
            (some (Rat.divInt (waitTimes d).sum ((waitTimes d).length : Int))))]]) := by
  match d with
  | none => exact ⟨rfl, fun _ => rfl, fun h => absurd rfl h⟩
  | some { payload := none, extra := e } => exact ⟨rfl, fun _ => rfl, fun h => absurd rfl h⟩
  | some { payload := some [], extra := e } => exact ⟨rfl, fun _ => rfl, fun h => absurd rfl h⟩
  | some { payload := some (j :: js), extra := e } =>
    have hfilter : (j :: js).filter pendingQualifies =
        qualifyingJobs (some { payload := some (j :: js), extra := e }) :=
      List.filter_congr (fun a _ => pendingQualifies_eq_spec a)
    have hwaits : ((j :: js).filter pendingQualifies).map
        (fun jb => jb.start_time_number - jb.eligible_time_number) =
        waitTimes (some { payload := some (j :: js), extra := e }) := by
      rw [waitTimes, ← hfilter]
    constructor
    · show (if (((j :: js).filter pendingQualifies).map
          (fun jb => jb.start_time_number - jb.eligible_time_number)).isEmpty
        then _ else _ : SummaryTable).cols = _
      split <;> rfl
    constructor
    · intro hq
      have hw : ((j :: js).filter pendingQualifies).map
          (fun jb => jb.start_time_number - jb.eligible_time_number) = [] := by
        rw [hwaits, waitTimes, hq]
        rfl
      show (if (((j :: js).filter pendingQualifies).map
          (fun jb => jb.start_time_number - jb.eligible_time_number)).isEmpty
        then { cols := ["Metric", "Value"], rows := zeroWaitRows }
        else _ : SummaryTable).rows = _
      rw [hw]
      rfl
    · intro hq
      have hw : ((j :: js).filter pendingQualifies).map
          (fun jb => jb.start_time_number - jb.eligible_time_number) ≠ [] := by
        rw [hwaits]
        intro hnil
        exact hq (by simpa [waitTimes] using hnil)
      obtain ⟨w, ws, hcons⟩ := List.exists_cons_of_ne_nil hw
      show (if (((j :: js).filter pendingQualifies).map
          (fun jb => jb.start_time_number - jb.eligible_time_number)).isEmpty
        then { cols := ["Metric", "Value"], rows := zeroWaitRows }
        else _ : SummaryTable).rows = _
      rw [hcons]
      show [[Cell.str "Max Waiting Time",
             Cell.str (format_seconds_to_human_readable (some ((pmax (w :: ws) : Int) : Rat)))],
            [Cell.str "Median Waiting Time",
             Cell.str (format_seconds_to_human_readable (some (pmedian (w :: ws))))],
            [Cell.str "Mean Waiting Time",
             Cell.str (format_seconds_to_human_readable (some (pmean (w :: ws))))]] = _
      rw [pmax_eq_max, ← hcons, hwaits]
      rfl

/-- The two PENDING jobs of the testable-properties example: waits 400s and
1400s. -/
def c4_jobs : List JobRecord :=
  [{ account := "a1", user_name := "u1", job_state := ["PENDING"],
     eligible_time_number := 1678886000, start_time_number := 1678886400 },
   { account := "a2", user_name := "u2", job_state := ["PENDING"],
     eligible_time_number := 1678885000, start_time_number := 1678886400 }]

/-- Witness for C4: with waits 400s and 1400s the summary reports max
"0d 0h 23m 20s" and median and mean "0d 0h 15m 0s". -/
theorem C4_pending_wait_times_witness :
    qualifyingJobs (some { payload := some c4_jobs, extra := false }) ≠ [] ∧
    (process_pending_job_waiting_times_summary
        (some { payload := some c4_jobs, extra := false })).rows =
      [[Cell.str "Max Waiting Time", Cell.str "0d 0h 23m 20s"],
       [Cell.str "Median Waiting Time", Cell.str "0d 0h 15m 0s"],
       [Cell.str "Mean Waiting Time", Cell.str "0d 0h 15m 0s"]] :=
  ⟨by decide,
   ((C4_pending_wait_times
      (some { payload := some c4_jobs, extra := false })).2.2 (by decide)).trans
    (by decide)⟩

/-- The claim-side broken-node count of C6: nodes whose state set intersects
the broken vocabulary. -/
def specBrokenCount (ns : List NodeRecord) : Int :=
  ((ns.filter (fun n => decide (∃ s ∈ n.state, s ∈ broken_states))).length : Int)

/-- The claim-side reservation count of C6: nodes whose state set contains
RESERVATION. -/
def specReservationCount (ns : List NodeRecord) : Int :=
  ((ns.filter (fun n => decide ("RESERVATION" ∈ n.state))).length : Int)

/-- The claim-side mixed count of C6: nodes with 0 < alloc_cpus < cpus. -/
def specMixedCount (ns : List NodeRecord) : Int :=
  ((ns.filter (fun n => decide (0 < n.alloc_cpus ∧ n.alloc_cpus < n.cpus))).length : Int)

/-- The or-chain filter of the code agrees pointwise with intersecting the
broken vocabulary. -/
theorem nodeIsBroken_eq_spec (n : NodeRecord) :
    nodeIsBroken n = decide (∃ s ∈ n.state, s ∈ broken_states) := by
  rw [Bool.eq_iff_iff, decide_eq_true_eq]
  simp only [nodeIsBroken, List.any_eq_true, List.contains, List.elem_iff,
    decide_eq_true_eq]
  constructor
  · rintro ⟨s, h1, h2⟩
    exact ⟨s, h2, h1⟩
  · rintro ⟨s, h1, h2⟩
    exact ⟨s, h2, h1⟩

/-- The reservation filter of the code agrees pointwise with membership. -/
theorem reservationContains_eq_spec (n : NodeRecord) :
    n.state.contains "RESERVATION" = decide ("RESERVATION" ∈ n.state) := by
  rw [Bool.eq_iff_iff, decide_eq_true_eq]
  simp [List.contains, List.elem_iff]

/-- The mixed filter of the code agrees pointwise with the claim-side
condition. -/
theorem nodeIsMixed_eq_spec (n : NodeRecord) :
    nodeIsMixed n = decide (0 < n.alloc_cpus ∧ n.alloc_cpus < n.cpus) := by
  rw [Bool.eq_iff_iff, decide_eq_true_eq]
  simp [nodeIsMixed]

/-- C6: for every non-empty scontrol nodes payload, the node summary rows at
indices 5, 6 and 7 are the Broken Nodes, Nodes in Reservation and Mixed
Nodes counts given by the claim-side predicates: state set intersecting the
broken vocabulary, state set containing RESERVATION, and
0 < alloc_cpus < cpus. -/
theorem C6_node_summary_counts (ns : List NodeRecord) (e : Bool) (h : ns ≠ []) :
    process_node_summary (some { payload := some ns, extra := e }) =
      .ok (some (tableOf (process_node_summary (some { payload := some ns, extra := e })))) ∧
    (tableOf (process_node_summary (some { payload := some ns, extra := e }))).rows.get? 5 =
      some [Cell.str "Broken Nodes", Cell.int (specBrokenCount ns)] ∧
    (tableOf (process_node_summary (some { payload := some ns, extra := e }))).rows.get? 6 =
      some [Cell.str "Nodes in Reservation", Cell.int (specReservationCount ns)] ∧
    (tableOf (process_node_summary (some { payload := some ns, extra := e }))).rows.get? 7 =
      some [Cell.str "Mixed Nodes", Cell.int (specMixedCount ns)] := by
  match ns, h with
  | n :: ns, _ =>
    have hb : (n :: ns).filter nodeIsBroken =
        (n :: ns).filter (fun m => decide (∃ s ∈ m.state, s ∈ broken_states)) :=
      List.filter_congr (fun a _ => nodeIsBroken_eq_spec a)
    have hr : (n :: ns).filter (fun m => m.state.contains "RESERVATION") =
        (n :: ns).filter (fun m => decide ("RESERVATION" ∈ m.state)) :=
      List.filter_congr (fun a _ => reservationContains_eq_spec a)
    have hm : (n :: ns).filter nodeIsMixed =
        (n :: ns).filter (fun m => decide (0 < m.alloc_cpus ∧ m.alloc_cpus < m.cpus)) :=
      List.filter_congr (fun a _ => nodeIsMixed_eq_spec a)
    refine ⟨rfl, ?_, ?_, ?_⟩
    · show some [Cell.str "Broken Nodes",
        Cell.int (((n :: ns).filter nodeIsBroken).length : Int)] = _
      rw [hb]
      rfl
    · show some [Cell.str "Nodes in Reservation",
        Cell.int (((n :: ns).filter (fun m => m.state.contains "RESERVATION")).length : Int)] = _
      rw [hr]
      rfl
    · show some [Cell.str "Mixed Nodes",
        Cell.int (((n :: ns).filter nodeIsMixed).length : Int)] = _
      rw [hm]
      rfl

/-- The five nodes of the testable-properties example: states IDLE,
ALLOCATED, DRAINED, RESERVATION+ALLOCATED, MIXED with (cpus, alloc_cpus)
pairs (4,0), (8,4), (4,0), (8,4), (8,2). -/
def c6_nodes : List NodeRecord :=
  [{ name := "n1", state := ["IDLE"], cpus := 4, alloc_cpus := 0,
     real_memory := 16000, alloc_memory := 0, partitions := ["p"], cpu_load := 0 },
   { name := "n2", state := ["ALLOCATED"], cpus := 8, alloc_cpus := 4,
     real_memory := 32000, alloc_memory := 16000, partitions := ["p"], cpu_load := 0 },
   { name := "n3", state := ["DRAINED"], cpus := 4, alloc_cpus := 0,
     real_memory := 16000, alloc_memory := 0, partitions := ["p"], cpu_load := 0 },
   { name := "n4", state := ["RESERVATION", "ALLOCATED"], cpus := 8, alloc_cpus := 4,
     real_memory := 32000, alloc_memory := 16000, partitions := ["p"], cpu_load := 0 },
   { name := "n5", state := ["MIXED"], cpus := 8, alloc_cpus := 2,
     real_memory := 32000, alloc_memory := 8000, partitions := ["p"], cpu_load := 0 }]

/-- Witness for C6 at the five example nodes: Broken Nodes 1, Nodes in
Reservation 1, Mixed Nodes 3. -/
theorem C6_node_summary_counts_witness :
    (tableOf (process_node_summary
        (some { payload := some c6_nodes, extra := false }))).rows.get? 5 =
      some [Cell.str "Broken Nodes", Cell.int 1] ∧
    (tableOf (process_node_summary
        (some { payload := some c6_nodes, extra := false }))).rows.get? 6 =
      some [Cell.str "Nodes in Reservation", Cell.int 1] ∧
    (tableOf (process_node_summary
        (some { payload := some c6_nodes, extra := false }))).rows.get? 7 =
      some [Cell.str "Mixed Nodes", Cell.int 3] :=
  ⟨((C6_node_summary_counts c6_nodes false (by decide)).2.1).trans (by decide),
   ((C6_node_summary_counts c6_nodes false (by decide)).2.2.1).trans (by decide),
   ((C6_node_summary_counts c6_nodes false (by decide)).2.2.2).trans (by decide)⟩

/-- The claim-side per-partition sum of C5, phrased with propositional
equality on the partition name. -/
def specPartitionSum (rs : List PartitionRecord) (n : String)
    (f : PartitionRecord → Int) : Int :=
  ((rs.filter (fun r => decide (r.partition_name = n))).map f).sum

/-- The code-side group sum agrees with the claim-side sum. -/
theorem partitionSum_eq_spec (rs : List PartitionRecord) (n : String)
    (f : PartitionRecord → Int) : partitionSum rs n f = specPartitionSum rs n f := by
  unfold partitionSum specPartitionSum
  congr 1

/-- The rollup row of one partition, restated with the claim-side sums. -/
theorem partitionSummaryRow_eq_spec (rs : List PartitionRecord) (n : String) :
    partitionSummaryRow rs n =
      [Cell.str n,
       Cell.int (specPartitionSum rs n (·.nodes_total)),
       Cell.int (specPartitionSum rs n (·.nodes_idle)),
       Cell.int (specPartitionSum rs n (·.nodes_allocated)),
       Cell.int (specPartitionSum rs n (·.cpus_total)),
       Cell.int (specPartitionSum rs n (·.cpus_idle)),
       Cell.int (specPartitionSum rs n (·.cpus_allocated))] := by
  simp [partitionSummaryRow, partitionSum_eq_spec]

/-- The table produced by process_partition_summary on a present, non-empty
record list. -/
def partitionSummaryTableOf (rs : List PartitionRecord) (e : Bool) : SummaryTable :=
  tableOf (process_partition_summary (some { payload := some rs, extra := e }))

/-- C5: on a non-empty sinfo payload the partition rollup succeeds with the
fixed schema; its rows carry exactly the distinct partition names of the
input, one row each; every row holds the sums of the six numeric sub-fields
over the records sharing its name; and rows are sorted descending by the
Total Nodes value. -/
theorem C5_partition_rollup (rs : List PartitionRecord) (e : Bool) (h : rs ≠ []) :
    process_partition_summary (some { payload := some rs, extra := e }) =
      .ok (some (partitionSummaryTableOf rs e)) ∧
    (partitionSummaryTableOf rs e).cols = partitionSummaryCols ∧
    (∀ n : String,
      (∃ row ∈ (partitionSummaryTableOf rs e).rows,
        row.get? 0 = some (Cell.str n)) ↔ n ∈ rs.map (·.partition_name)) ∧
    ((partitionSummaryTableOf rs e).rows.map (fun row => row.get? 0)).Nodup ∧
    (∀ row ∈ (partitionSummaryTableOf rs e).rows, ∀ n : String,
      row.get? 0 = some (Cell.str n) →
      row = [Cell.str n,
             Cell.int (specPartitionSum rs n (·.nodes_total)),
             Cell.int (specPartitionSum rs n (·.nodes_idle)),
             Cell.int (specPartitionSum rs n (·.nodes_allocated)),
             Cell.int (specPartitionSum rs n (·.cpus_total)),
             Cell.int (specPartitionSum rs n (·.cpus_idle)),
             Cell.int (specPartitionSum rs n (·.cpus_allocated))]) ∧
    List.Pairwise (fun a b => intKeyAt1 b ≤ intKeyAt1 a)
      (partitionSummaryTableOf rs e).rows := by
  match rs, h with
  | r :: rs, _ =>
    have hkey : process_partition_summary (some { payload := some (r :: rs), extra := e }) =
        .ok (some { cols := partitionSummaryCols,
                    rows := List.insertionSort descAt1
                      ((((r :: rs).map (·.partition_name)).dedup).map
                        (partitionSummaryRow (r :: rs))) }) := rfl
    have hT : partitionSummaryTableOf (r :: rs) e =
        { cols := partitionSummaryCols,
          rows := List.insertionSort descAt1
            ((((r :: rs).map (·.partition_name)).dedup).map
              (partitionSummaryRow (r :: rs))) } := by
      rw [partitionSummaryTableOf, hkey]
      rfl
    have hrows : (partitionSummaryTableOf (r :: rs) e).rows =
        List.insertionSort descAt1
          ((((r :: rs).map (·.partition_name)).dedup).map
            (partitionSummaryRow (r :: rs))) := by
      rw [hT]
    refine ⟨by rw [hT]; exact hkey, by rw [hT], ?_, ?_, ?_, ?_⟩
    · intro n
      rw [hrows]
      constructor
      · rintro ⟨row, hrow, hget⟩
        rw [List.mem_insertionSort] at hrow
        obtain ⟨m, hm, rfl⟩ := List.mem_map.mp hrow
        have hmn : m = n := by
          simpa [partitionSummaryRow] using hget
        exact List.mem_dedup.mp (hmn ▸ hm)
      · intro hn
        exact ⟨partitionSummaryRow (r :: rs) n,
          by rw [List.mem_insertionSort]
             exact List.mem_map.mpr ⟨n, List.mem_dedup.mpr hn, rfl⟩,
          rfl⟩
    · rw [hrows]
      have hperm : List.Perm
          ((List.insertionSort descAt1
            ((((r :: rs).map (·.partition_name)).dedup).map
              (partitionSummaryRow (r :: rs)))).map (fun row => row.get? 0))
          (((((r :: rs).map (·.partition_name)).dedup).map
            (partitionSummaryRow (r :: rs))).map (fun row => row.get? 0)) :=
        (List.perm_insertionSort descAt1 _).map _
      rw [hperm.nodup_iff, List.map_map]
      refine List.Nodup.map ?_ (List.nodup_dedup _)
      intro a b hab
      simpa [partitionSummaryRow, Function.comp] using hab
    · intro row hrow n hget
      rw [hrows, List.mem_insertionSort] at hrow
      obtain ⟨m, hm, rfl⟩ := List.mem_map.mp hrow
      have hmn : m = n := by
        simpa [partitionSummaryRow] using hget
      rw [← hmn]
      exact partitionSummaryRow_eq_spec (r :: rs) m
    · rw [hrows]
      exact List.sorted_insertionSort descAt1 _

/-- The two-partition sinfo example (debug and normal) used as the C5
witness. -/
def c5_records : List PartitionRecord :=
  [{ partition_name := "debug", nodes_total := 1, nodes_idle := 1, nodes_allocated := 0,
     cpus_total := 4, cpus_idle := 4, cpus_allocated := 0,
     availability := none, state := none },
   { partition_name := "normal", nodes_total := 2, nodes_idle := 1, nodes_allocated := 1,
     cpus_total := 8, cpus_idle := 4, cpus_allocated := 4,
     availability := none, state := none }]

/-- Witness for C5 at the two-partition example: the rollup has the fixed
schema and its rows are sorted descending on Total Nodes. -/
theorem C5_partition_rollup_witness :
    (partitionSummaryTableOf c5_records false).cols = partitionSummaryCols ∧
    List.Pairwise (fun a b => intKeyAt1 b ≤ intKeyAt1 a)
      (partitionSummaryTableOf c5_records false).rows :=
  ⟨(C5_partition_rollup c5_records false (by decide)).2.1,
   (C5_partition_rollup c5_records false (by decide)).2.2.2.2.2⟩
